import Mathlib

/-!
Formal model of the cam-face-buddy face-detection component.

The repository is a browser face-detection demo: a React component
(`FaceDetectionAdvanced`) runs a per-frame detect-and-draw loop over an
external face-recognition library, and persists face descriptors to a
hosted `faces` table guarded by row-level security policies (the SQL
migration).  This file gives a shallow embedding of

  * the `faces` table and its four row-level policies (from the SQL
    migration `20251022160828_...sql`),
  * the three client persistence operations `loadSavedFaces`,
    `handleSaveFace` (insert) and `handleDeleteFace` (from
    `FaceDetectionAdvanced`),
  * the component state (`useState` hooks and refs) together with
    `handleSaveFace`, `stopCamera` and one iteration `detectFaces` of the
    per-frame loop, modelled as pure state transformers that also emit a
    trace of their observable effects.

Descriptor values are modelled as rationals: a JS `number` is an IEEE
float64 and every float32 widens exactly to a float64, so the value-level
content of `Array.from(float32Array)` (widening, `Index.tsx` line 304) and
`new Float32Array(numbers)` (rounding, exact on values that originated as
float32, line 197) is an element-wise copy, embedded as `List.map` of the
identity.  The JSONB `descriptor` column stores a JSON value; the
serialisation performed by the backend client is modelled explicitly by
`encodeDesc` / `decodeDesc`.
-/

/-- JSON values, as stored in the JSONB `descriptor` column. -/
inductive Json where
  | num (q : Rat)
  | str (s : String)
  | arr (xs : List Json)

/-- Element-wise copy `Array.from(float32Array)`: float32-to-float64
widening is exact, so at value level it is the identity map. -/
def ArrayFrom (d : List Rat) : List Rat :=
  d.map (fun x => x)

/-- The `new Float32Array(numbers)` constructor: float64-to-float32
rounding, which is exact on values that originated as float32. -/
def mkFloat32Array (l : List Rat) : List Rat :=
  l.map (fun x => x)

/-- Serialisation of a `number[]` descriptor into the JSONB column. -/
def encodeDesc (l : List Rat) : Json :=
  .arr (l.map .num)

/-- Decode a single JSON value as a number. -/
def decodeNum : Json → Option Rat
  | .num q => some q
  | _ => none

/-- Decode a list of JSON values as numbers, failing on any non-number. -/
def decodeDescAux : List Json → Option (List Rat)
  | [] => some []
  | j :: rest =>
    match decodeNum j, decodeDescAux rest with
    | some q, some l => some (q :: l)
    | _, _ => none

/-- Deserialisation of the JSONB column back into a `number[]` (the JSON
parse performed by the backend client before the `as number[]` cast). -/
def decodeDesc : Json → Option (List Rat)
  | .arr xs => decodeDescAux xs
  | _ => none

/-- A row of the `public.faces` table (SQL migration, CREATE TABLE). -/
structure FaceRow where
  id : String
  user_id : String
  name : String
  descriptor : Json
  image_url : Option String
  created_at : String
  updated_at : String

/-- The `faces` table contents. -/
abbrev DB := List FaceRow

/-- The four operations governed by the row-level policies. -/
inductive DbOp where
  | select
  | insert
  | update
  | delete
deriving DecidableEq

/-- Policy "Users can view their own faces": USING (auth.uid() = user_id). -/
def selectUsing (uid : String) (r : FaceRow) : Bool :=
  uid == r.user_id

/-- Policy "Users can insert their own faces": WITH CHECK (auth.uid() = user_id). -/
def insertCheck (uid : String) (r : FaceRow) : Bool :=
  uid == r.user_id

/-- Policy "Users can update their own faces": USING (auth.uid() = user_id). -/
def updateUsing (uid : String) (r : FaceRow) : Bool :=
  uid == r.user_id

/-- Policy "Users can delete their own faces": USING (auth.uid() = user_id). -/
def deleteUsing (uid : String) (r : FaceRow) : Bool :=
  uid == r.user_id

/-- Whether the row-level policy for `op` permits requester `uid` to touch
row `r`. -/
def policyPermits : DbOp → String → FaceRow → Bool
  | .select, uid, r => selectUsing uid r
  | .insert, uid, r => insertCheck uid r
  | .update, uid, r => updateUsing uid r
  | .delete, uid, r => deleteUsing uid r

/-- Payload of the client insert (`supabase.from('faces').insert({...})`,
`FaceDetectionAdvanced` lines 299-305). -/
structure InsertPayload where
  user_id : String
  name : String
  descriptor : Json

/-- A client query against the `faces` table, as issued by the component. -/
inductive FacesQuery where
  | select (eqFilters : List (String × String)) (orderBy : String) (descending : Bool)
  | insert (payload : InsertPayload)
  | delete (eqFilters : List (String × String))

/-- The equality filters a query carries. -/
def filtersOf : FacesQuery → List (String × String)
  | .select fs _ _ => fs
  | .insert _ => []
  | .delete fs => fs

/-- Whether a client query is scoped to user `uid` on the client side:
either it filters on `user_id = uid` or its insert payload sets
`user_id := uid`. -/
def clientScopedTo (q : FacesQuery) (uid : String) : Bool :=
  match q with
  | .select fs _ _ => decide (("user_id", uid) ∈ fs)
  | .insert p => p.user_id == uid
  | .delete fs => decide (("user_id", uid) ∈ fs)

/-- The query issued by `loadSavedFaces`:
`.from('faces').select('*').eq('user_id', session.user.id).order('created_at', descending)`. -/
def loadSavedFacesQuery (uid : String) : FacesQuery :=
  .select [("user_id", uid)] "created_at" true

/-- The query issued by `handleSaveFace`:
`.from('faces').insert({user_id, name, descriptor: Array.from(...)})`. -/
def saveFaceQuery (uid name : String) (d : List Rat) : FacesQuery :=
  .insert ⟨uid, name, encodeDesc (ArrayFrom d)⟩

/-- The query issued by `handleDeleteFace`:
`.from('faces').delete().eq('id', id)` — note: no user_id filter. -/
def deleteFaceQuery (fid : String) : FacesQuery :=
  .delete [("id", fid)]

/-- The list of distinct client-side persistence operations the component
issues against the `faces` table. -/
def clientQueries (uid fid name : String) (d : List Rat) : List FacesQuery :=
  [loadSavedFacesQuery uid, saveFaceQuery uid name d, deleteFaceQuery fid]

/-- A saved face as held in component state (`SavedFace`, lines 11-16):
the row with the JSONB descriptor parsed back to a `number[]`. -/
structure SavedFace where
  id : String
  name : String
  descriptor : List Rat
  created_at : String
deriving DecidableEq

/-- The read operation `loadSavedFaces`: rows of the requesting user, with
the descriptor column parsed (the `face.descriptor as number[]` cast). -/
def loadSavedFaces (uid : String) (db : DB) : List SavedFace :=
  (db.filter (fun r => r.user_id == uid)).map
    (fun r => ⟨r.id, r.name, (decodeDesc r.descriptor).getD [], r.created_at⟩)

/-- A successful backend insert of the row built by `handleSaveFace`
(`id`, `created_at`, `updated_at` are generated server-side). -/
def applySave (uid name : String) (d : List Rat) (newId t : String) (db : DB) : DB :=
  db ++ [⟨newId, uid, name, encodeDesc (ArrayFrom d), none, t, t⟩]

/-- Backend execution of the client delete under the row-level delete
policy: only rows that match the id filter AND the policy are removed. -/
def applyDeleteRLS (uid fid : String) (db : DB) : DB :=
  db.filter (fun r => !(r.id == fid && deleteUsing uid r))

/-- Execution of the client delete WITHOUT any row-level policy (what the
client query alone asks for): every row with the given id is removed,
whoever owns it. -/
def applyDeleteNoRLS (fid : String) (db : DB) : DB :=
  db.filter (fun r => !(r.id == fid))

/-- The labelled-descriptor list the matcher is built from
(`new faceapi.LabeledFaceDescriptors(face.name, [new Float32Array(face.descriptor)])`,
lines 194-199). -/
def labeledFaceDescriptors (faces : List SavedFace) : List (String × List (List Rat)) :=
  faces.map (fun f => (f.name, [mkFloat32Array f.descriptor]))

/-- A toast notification (`useToast`): title, description, whether it uses
the destructive variant. -/
structure Toast where
  title : String
  description : String
  destructive : Bool
deriving DecidableEq

/-- Toast of the `loadModels` catch branch (lines 72-79): a fixed message,
the caught error is only written to the console. -/
def loadModelsErrorToast : Toast :=
  ⟨"Model Loading Failed", "Please refresh the page", true⟩

/-- User notification of the `loadSavedFaces` error branch (lines 91-94):
none — the error is written to the console and the function returns. -/
def loadSavedFacesErrorToast (_e : String) : Option Toast :=
  none

/-- Toast of the `handleSaveFace` error branch (lines 307-315): the
backend error's own message. -/
def saveFailedToast (e : String) : Toast :=
  ⟨"Save Failed", e, true⟩

/-- Toast of the `handleDeleteFace` error branch (lines 333-341). -/
def deleteFailedToast (e : String) : Toast :=
  ⟨"Delete Failed", e, true⟩

/-- Toast shown when `handleSaveFace` is called with no session. -/
def authRequiredToast : Toast :=
  ⟨"Authentication Required", "Please sign in to save faces", true⟩

/-- Toast shown when `handleSaveFace` is called with no captured descriptor. -/
def noFaceToast : Toast :=
  ⟨"No Face Detected", "Please position your face in front of the camera", true⟩

/-- Toast shown when `handleSaveFace` is called with a blank name. -/
def nameRequiredToast : Toast :=
  ⟨"Name Required", "Please enter a name for this face", true⟩

/-- Success toast of `handleSaveFace`. -/
def savedOkToast (n : String) : Toast :=
  ⟨"✓ Face Saved", n ++ " has been saved successfully", false⟩

/-- Success toast of `handleDeleteFace`. -/
def faceDeletedToast : Toast :=
  ⟨"✓ Face Deleted", "Face removed successfully", false⟩

/-- The state of the `FaceDetectionAdvanced` component: the `useState`
hooks plus the `streamRef` (modelled as the list of its track ids) and the
`currentDescriptorRef`. -/
structure CompState where
  isModelLoaded : Bool
  isCameraOn : Bool
  faceCount : Nat
  isDetecting : Bool
  currentEmotion : String
  matchedFace : String
  savedFaces : List SavedFace
  faceName : String
  showSaveInput : Bool
  session : Option String
  stream : Option (List String)
  currentDescriptor : Option (List Rat)
deriving DecidableEq

/-- The initial component state: the `useState` initial values, refs null. -/
def initState : CompState :=
  { isModelLoaded := false
    isCameraOn := false
    faceCount := 0
    isDetecting := false
    currentEmotion := ""
    matchedFace := ""
    savedFaces := []
    faceName := ""
    showSaveInput := false
    session := none
    stream := none
    currentDescriptor := none }

/-- Result of one call to `handleSaveFace`: the toast shown, the insert
query issued against the backend (none if the function returned before
contacting it), the component state afterwards, and whether
`loadSavedFaces()` is re-run. -/
structure SaveResult where
  toast : Option Toast
  query : Option FacesQuery
  state : CompState
  reload : Bool

/-- One call to `handleSaveFace` (lines 271-325).  `insertError` is the
backend's response to the insert, when one is issued. -/
def handleSaveFace (s : CompState) (insertError : Option String) : SaveResult :=
  match s.session with
  | none => ⟨some authRequiredToast, none, s, false⟩
  | some uid =>
    match s.currentDescriptor with
    | none => ⟨some noFaceToast, none, s, false⟩
    | some d =>
      if s.faceName.trim = "" then
        ⟨some nameRequiredToast, none, s, false⟩
      else
        let q := saveFaceQuery uid s.faceName d
        match insertError with
        | some e => ⟨some (saveFailedToast e), some q, s, false⟩
        | none =>
          ⟨some (savedOkToast s.faceName), some q,
            { s with faceName := "", showSaveInput := false }, true⟩

/-- Result of one call to `handleDeleteFace`. -/
structure DeleteResult where
  toast : Option Toast
  query : FacesQuery
  reload : Bool

/-- One call to `handleDeleteFace` (lines 327-349). -/
def handleDeleteFace (fid : String) (deleteError : Option String) : DeleteResult :=
  match deleteError with
  | some e => ⟨some (deleteFailedToast e), deleteFaceQuery fid, false⟩
  | none => ⟨some faceDeletedToast, deleteFaceQuery fid, true⟩

/-- One call to `stopCamera` (lines 133-146): the first component is the
list of track ids on which `track.stop()` is called. -/
def stopCamera (s : CompState) : List String × CompState :=
  (s.stream.getD [],
    { s with
      stream := none
      isCameraOn := false
      isDetecting := false
      faceCount := 0
      currentEmotion := ""
      matchedFace := "" })

/-- Canvas / video dimensions. -/
structure Dims where
  width : Rat
  height : Rat
deriving DecidableEq

/-- A bounding box as used by the detection library. -/
structure Box where
  x : Rat
  y : Rat
  width : Rat
  height : Rat
deriving DecidableEq

/-- One detection returned by the external model for a frame: its box (in
the coordinates of the frame it was computed on, `imageDims`), the
expression scores, and the face descriptor. -/
structure Detection where
  box : Box
  imageDims : Dims
  expressions : List (String × Rat)
  descriptor : List Rat
deriving DecidableEq

/-- `faceapi.resizeResults`: scale a box from the source dimensions to the
display dimensions. -/
def resizeBox (src dst : Dims) (b : Box) : Box :=
  ⟨b.x * (dst.width / src.width), b.y * (dst.height / src.height),
   b.width * (dst.width / src.width), b.height * (dst.height / src.height)⟩

/-- Resize one detection to the display size (descriptor and expressions
are unchanged). -/
def resizeDetection (dst : Dims) (d : Detection) : Detection :=
  { d with box := resizeBox d.imageDims dst d.box }

/-- The dominant-expression fold
`Object.entries(expressions).reduce((a, b) => expressions[a[0]] > expressions[b[0]] ? a : b)`:
keep the accumulator only when strictly greater. -/
def maxExprKey : List (String × Rat) → String
  | [] => ""
  | e :: rest => (rest.foldl (fun a b => if a.2 > b.2 then a else b) e).1

/-- Inputs of one iteration of `detectFaces`: whether the video/canvas
refs and the 2d context are non-null, the detections the model returns for
the current frame, and the display size. -/
structure FrameInput where
  videoPresent : Bool
  canvasPresent : Bool
  ctxPresent : Bool
  detections : List Detection
  displaySize : Dims
deriving DecidableEq

/-- Observable events of one iteration of `detectFaces`, in order. -/
inductive FrameEvent where
  | detectCall
  | matchDims (d : Dims)
  | clearRect
  | setEmotion (s : String)
  | setDescriptor (d : Option (List Rat))
  | matchCall
  | setMatched (s : String)
  | glowRect (x y w h : Rat)
  | mainBox (b : Box)
  | cornerAccents (b : Box)
  | setFaceCount (n : Nat)
  | raf
deriving DecidableEq

/-- The canvas strokes drawn for one detected face (lines 213-258): outer
glow rectangle, main bounding box, corner accents. -/
def drawFaceEvents (b : Box) : List FrameEvent :=
  [.glowRect (b.x - 4) (b.y - 4) (b.width + 8) (b.height + 8),
   .mainBox b, .cornerAccents b]

/-- The `resizedDetections.forEach` drawing pass. -/
def drawEvents : List Detection → List FrameEvent
  | [] => []
  | d :: rest => drawFaceEvents d.box ++ drawEvents rest

/-- The emotion/descriptor/matching block of `detectFaces` (lines
177-210), on the already-resized detections: events emitted and the state
update.  `matcher` is the external `FaceMatcher.findBestMatch`, a black
box taking the labelled descriptors and the probe descriptor. -/
def processDetections (matcher : List (String × List (List Rat)) → List Rat → String)
    (s : CompState) (resized : List Detection) : List FrameEvent × CompState :=
  match resized with
  | [] =>
    ([.setEmotion "", .setMatched "", .setDescriptor none],
     { s with currentEmotion := "", matchedFace := "", currentDescriptor := none })
  | d0 :: _ =>
    let emo := maxExprKey d0.expressions
    if 0 < s.savedFaces.length ∧ s.session.isSome = true then
      let m := matcher (labeledFaceDescriptors s.savedFaces) d0.descriptor
      let lbl := if m ≠ "unknown" then m else ""
      ([.setEmotion emo, .setDescriptor (some d0.descriptor), .matchCall, .setMatched lbl],
       { s with currentEmotion := emo, currentDescriptor := some d0.descriptor,
                matchedFace := lbl })
    else
      ([.setEmotion emo, .setDescriptor (some d0.descriptor)],
       { s with currentEmotion := emo, currentDescriptor := some d0.descriptor })

/-- One iteration of the `detectFaces` loop (lines 153-266): the guard at
the top, the sequential model call, dimension matching and clear, the
emotion/matching block, the drawing pass, the face-count update and the
conditional `requestAnimationFrame` re-invocation.  Returns the event
trace and the state afterwards. -/
def detectFrame (matcher : List (String × List (List Rat)) → List Rat → String)
    (s : CompState) (inp : FrameInput) : List FrameEvent × CompState :=
  if inp.videoPresent && inp.canvasPresent && s.isCameraOn then
    let resized := inp.detections.map (resizeDetection inp.displaySize)
    let clearEvts : List FrameEvent := if inp.ctxPresent then [.clearRect] else []
    let pr := processDetections matcher s resized
    let drawEvts := if inp.ctxPresent then drawEvents resized else []
    let rafEvts : List FrameEvent := if s.isCameraOn then [.raf] else []
    (.detectCall :: .matchDims inp.displaySize ::
       (clearEvts ++ pr.1 ++ drawEvts ++ [.setFaceCount inp.detections.length] ++ rafEvts),
     { pr.2 with faceCount := inp.detections.length })
  else ([], s)

/-- The descriptor-length invariant of the `faces` table: every stored
descriptor decodes to a numeric vector of length `n`. -/
def descLenInv (n : Nat) (db : DB) : Prop :=
  ∀ r ∈ db, ∃ l, decodeDesc r.descriptor = some l ∧ l.length = n

/-- Project the main bounding-box stroke out of a frame event. -/
def mainBoxOf : FrameEvent → Option Box
  | .mainBox b => some b
  | _ => none

/-- The toast `handleSaveFace` shows for the first failing precondition. -/
def firstFailToast (s : CompState) : Toast :=
  if s.session.isNone then authRequiredToast
  else if s.currentDescriptor.isNone then noFaceToast
  else nameRequiredToast

theorem decodeDescAux_encode (l : List Rat) :
    decodeDescAux (l.map Json.num) = some l := by
  induction l with
  | nil => rfl
  | cons x xs ih => simp [decodeDescAux, decodeNum, ih]

theorem decode_encode (l : List Rat) : decodeDesc (encodeDesc l) = some l := by
  simp [decodeDesc, encodeDesc, decodeDescAux_encode]

theorem mkFloat32Array_ArrayFrom (d : List Rat) : mkFloat32Array (ArrayFrom d) = d := by
  simp [mkFloat32Array, ArrayFrom]

/-- C1: each of the four row-level policies on the `faces` table permits a
requester's operation on a row exactly when the row's `user_id` is the
requester's identity; in particular, for two distinct users, no operation
of one can touch a row owned by the other. -/
theorem policy_owner_iff (op : DbOp) (u v : String) (r : FaceRow) (huv : u ≠ v) :
    (policyPermits op u r = true ↔ r.user_id = u) ∧
    (r.user_id = v → policyPermits op u r = false) := by
  constructor
  · have hbase : (u == r.user_id) = true ↔ r.user_id = u := by
      rw [beq_iff_eq]
      exact eq_comm
    cases op <;> exact hbase
  · intro hv
    have hne : u ≠ r.user_id := by
      rw [hv]
      exact huv
    cases op <;> exact beq_eq_false_iff_ne.mpr hne

/-- Witness for C1 at concrete users "u1" ≠ "v2" and a row owned by "v2". -/
theorem policy_owner_iff_witness :
    ("u1" : String) ≠ "v2" ∧
    (policyPermits .select "u1" ⟨"r1", "v2", "Bob", encodeDesc [], none, "t", "t"⟩ = true ↔
      (FaceRow.mk "r1" "v2" "Bob" (encodeDesc []) none "t" "t").user_id = "u1") ∧
    ((FaceRow.mk "r1" "v2" "Bob" (encodeDesc []) none "t" "t").user_id = "v2" →
      policyPermits .select "u1" ⟨"r1", "v2", "Bob", encodeDesc [], none, "t", "t"⟩ = false) := by
  have h := policy_owner_iff .select "u1" "v2"
    ⟨"r1", "v2", "Bob", encodeDesc [], none, "t", "t"⟩ (by decide)
  exact ⟨by decide, h.1, h.2⟩

/-- C4: saving a descriptor stores the element-wise copy of the model's
output and loading reconstructs it, so the labelled vectors handed to the
matcher after a save are the previous ones extended by exactly the vector
the model produced. -/
theorem descriptor_roundtrip (uid nm nid t : String) (d : List Rat) (db : DB) :
    labeledFaceDescriptors (loadSavedFaces uid (applySave uid nm d nid t db)) =
      labeledFaceDescriptors (loadSavedFaces uid db) ++ [(nm, [d])] := by
  simp [labeledFaceDescriptors, loadSavedFaces, applySave, List.filter_append,
    decode_encode, mkFloat32Array_ArrayFrom]

/-- C6 counterexample: a model-loading failure with message "boom" is
reported with a fixed description, not the error's own message, and a
failure of `loadSavedFaces` produces no user notification at all. -/
theorem error_surfacing_cex :
    loadSavedFacesErrorToast "boom" = none ∧
    (loadModelsErrorToast.description == "boom") = false ∧
    loadModelsErrorToast.description = "Please refresh the page" := by
  exact ⟨rfl, by decide, rfl⟩

/-- C6 amended: save and delete failures surface the backend error's own
message verbatim; a model-loading failure shows the fixed description
"Please refresh the page"; a failure while loading saved faces is only
logged, with no user-facing message. -/
theorem error_surfacing_amended (e : String) :
    (saveFailedToast e).description = e ∧
    (deleteFailedToast e).description = e ∧
    loadSavedFacesErrorToast e = none ∧
    loadModelsErrorToast.description = "Please refresh the page" :=
  ⟨rfl, rfl, rfl, rfl⟩

/-- C10: `stopCamera` stops every track of the active stream, resets
isCameraOn, isDetecting, faceCount, currentEmotion and matchedFace to
their initial values, and leaves savedFaces, session, faceName,
showSaveInput and the captured descriptor unchanged. -/
theorem stopCamera_resets (s : CompState) :
    (stopCamera s).1 = s.stream.getD [] ∧
    (stopCamera s).2.isCameraOn = initState.isCameraOn ∧
    (stopCamera s).2.isDetecting = initState.isDetecting ∧
    (stopCamera s).2.faceCount = initState.faceCount ∧
    (stopCamera s).2.currentEmotion = initState.currentEmotion ∧
    (stopCamera s).2.matchedFace = initState.matchedFace ∧
    (stopCamera s).2.stream = none ∧
    (stopCamera s).2.savedFaces = s.savedFaces ∧
    (stopCamera s).2.session = s.session ∧
    (stopCamera s).2.faceName = s.faceName ∧
    (stopCamera s).2.showSaveInput = s.showSaveInput ∧
    (stopCamera s).2.currentDescriptor = s.currentDescriptor ∧
    (stopCamera s).2.isModelLoaded = s.isModelLoaded :=
  ⟨rfl, rfl, rfl, rfl, rfl, rfl, rfl, rfl, rfl, rfl, rfl, rfl, rfl⟩

theorem matchCall_mem_processDetections
    {m : List (String × List (List Rat)) → List Rat → String} {s : CompState}
    {l : List Detection} (h : FrameEvent.matchCall ∈ (processDetections m s l).1) :
    0 < s.savedFaces.length ∧ s.session.isSome = true := by
  cases l with
  | nil => simp [processDetections] at h
  | cons d rest =>
    by_cases hc : 0 < s.savedFaces.length ∧ s.session.isSome = true
    · exact hc
    · simp [processDetections, hc] at h

theorem matchCall_not_mem_drawEvents (l : List Detection) :
    FrameEvent.matchCall ∉ drawEvents l := by
  induction l with
  | nil => simp [drawEvents]
  | cons d rest ih => simp [drawEvents, drawFaceEvents, ih]

/-- C2: persisting a descriptor and matching against stored descriptors
are gated on a session: with no session `handleSaveFace` issues no insert
and reports an authentication error, and the per-frame matcher is invoked
only when a session exists. -/
theorem save_and_match_require_session :
    (∀ (s : CompState) (r : Option String), s.session = none →
        (handleSaveFace s r).query = none ∧
        (handleSaveFace s r).toast = some authRequiredToast) ∧
    (∀ (m : List (String × List (List Rat)) → List Rat → String)
        (s : CompState) (inp : FrameInput),
        FrameEvent.matchCall ∈ (detectFrame m s inp).1 → s.session.isSome = true) := by
  constructor
  · intro s r h
    simp [handleSaveFace, h]
  · intro m s inp hmem
    rw [detectFrame] at hmem
    by_cases hg : (inp.videoPresent && inp.canvasPresent && s.isCameraOn) = true
    · rw [if_pos hg] at hmem
      have hon : s.isCameraOn = true := by
        simp only [Bool.and_eq_true] at hg
        exact hg.2
      by_cases hctx : inp.ctxPresent = true
      · simp [hctx, hon] at hmem
        rcases hmem with h | h <;>
          first
            | exact (matchCall_mem_processDetections h).2
            | exact absurd h (matchCall_not_mem_drawEvents _)
      · simp [hctx, hon] at hmem
        exact (matchCall_mem_processDetections hmem).2
    · rw [if_neg hg] at hmem
      simp at hmem

/-- Witness for C2: with no session the save issues no insert; a concrete
frame on which the matcher runs has a session. -/
theorem save_and_match_require_session_witness :
    (handleSaveFace initState none).query = none ∧
    FrameEvent.matchCall ∈
      (detectFrame (fun _ _ => "Ann")
        { initState with isCameraOn := true, session := some "u1",
                         savedFaces := [⟨"f1", "Ann", [0], "t"⟩] }
        ⟨true, true, true, [⟨⟨0, 0, 1, 1⟩, ⟨1, 1⟩, [("happy", 1)], [0]⟩], ⟨1, 1⟩⟩).1 ∧
    ({ initState with isCameraOn := true, session := some "u1",
                      savedFaces := [⟨"f1", "Ann", [0], "t"⟩] } : CompState).session.isSome
      = true := by
  refine ⟨(save_and_match_require_session.1 initState none rfl).1, by decide, ?_⟩
  exact save_and_match_require_session.2 (fun _ _ => "Ann")
    { initState with isCameraOn := true, session := some "u1",
                     savedFaces := [⟨"f1", "Ann", [0], "t"⟩] }
    ⟨true, true, true, [⟨⟨0, 0, 1, 1⟩, ⟨1, 1⟩, [("happy", 1)], [0]⟩], ⟨1, 1⟩⟩ (by decide)

/-- C8: `handleSaveFace` contacts the backend only when a session exists,
a descriptor has been captured and the trimmed name is non-blank; when a
precondition fails it shows the corresponding error toast, issues no
query, changes no state and triggers no reload. -/
theorem save_preconditions_atomic (s : CompState) (r : Option String) :
    ((s.session = none ∨ s.currentDescriptor = none ∨ s.faceName.trim = "") →
      (handleSaveFace s r).state = s ∧
      (handleSaveFace s r).query = none ∧
      (handleSaveFace s r).toast = some (firstFailToast s) ∧
      (handleSaveFace s r).reload = false) ∧
    ((handleSaveFace s r).query.isSome = true →
      s.session.isSome = true ∧ s.currentDescriptor.isSome = true ∧
      (s.faceName.trim == "") = false) := by
  constructor
  · intro h
    cases hs : s.session with
    | none => simp [handleSaveFace, hs, firstFailToast]
    | some uid =>
      cases hd : s.currentDescriptor with
      | none => simp [handleSaveFace, hs, hd, firstFailToast]
      | some d =>
        have htrim : s.faceName.trim = "" := by
          rcases h with h | h | h
          · rw [hs] at h
            exact absurd h (by simp)
          · rw [hd] at h
            exact absurd h (by simp)
          · exact h
        simp [handleSaveFace, hs, hd, htrim, firstFailToast]
  · intro hq
    cases hs : s.session with
    | none => rw [handleSaveFace, hs] at hq; simp at hq
    | some uid =>
      cases hd : s.currentDescriptor with
      | none => rw [handleSaveFace, hs, hd] at hq; simp at hq
      | some d =>
        by_cases htrim : s.faceName.trim = ""
        · rw [handleSaveFace, hs, hd] at hq
          simp [htrim] at hq
        · exact ⟨by simp [hs], by simp [hd], by simp [htrim]⟩

/-- Witness for C8 at the initial state (no session): the save is a no-op
apart from the authentication toast. -/
theorem save_preconditions_atomic_witness :
    initState.session = none ∧
    (handleSaveFace initState none).state = initState ∧
    (handleSaveFace initState none).query = none ∧
    (handleSaveFace initState none).toast = some (firstFailToast initState) ∧
    (handleSaveFace initState none).reload = false := by
  have h := (save_preconditions_atomic initState none).1 (Or.inl rfl)
  exact ⟨rfl, h.1, h.2.1, h.2.2.1, h.2.2.2⟩

theorem processDetections_no_detect
    (m : List (String × List (List Rat)) → List Rat → String) (s : CompState)
    (l : List Detection) : FrameEvent.detectCall ∉ (processDetections m s l).1 := by
  cases l with
  | nil => simp [processDetections]
  | cons d rest =>
    by_cases hc : 0 < s.savedFaces.length ∧ s.session.isSome = true <;>
      simp [processDetections, hc]

theorem processDetections_no_raf
    (m : List (String × List (List Rat)) → List Rat → String) (s : CompState)
    (l : List Detection) : FrameEvent.raf ∉ (processDetections m s l).1 := by
  cases l with
  | nil => simp [processDetections]
  | cons d rest =>
    by_cases hc : 0 < s.savedFaces.length ∧ s.session.isSome = true <;>
      simp [processDetections, hc]

theorem processDetections_no_mainBox
    (m : List (String × List (List Rat)) → List Rat → String) (s : CompState)
    (l : List Detection) : (processDetections m s l).1.filterMap mainBoxOf = [] := by
  cases l with
  | nil => rfl
  | cons d rest =>
    by_cases hc : 0 < s.savedFaces.length ∧ s.session.isSome = true <;>
      simp [processDetections, hc, mainBoxOf]

theorem drawEvents_no_detect (l : List Detection) :
    FrameEvent.detectCall ∉ drawEvents l := by
  induction l with
  | nil => simp [drawEvents]
  | cons d rest ih => simp [drawEvents, drawFaceEvents, ih]

theorem drawEvents_no_raf (l : List Detection) :
    FrameEvent.raf ∉ drawEvents l := by
  induction l with
  | nil => simp [drawEvents]
  | cons d rest ih => simp [drawEvents, drawFaceEvents, ih]

theorem drawEvents_mainBoxes (l : List Detection) :
    (drawEvents l).filterMap mainBoxOf = l.map Detection.box := by
  induction l with
  | nil => rfl
  | cons d rest ih => simp [drawEvents, drawFaceEvents, mainBoxOf, ih]

theorem processDetections_count_detect
    (m : List (String × List (List Rat)) → List Rat → String) (s : CompState)
    (l : List Detection) : (processDetections m s l).1.count FrameEvent.detectCall = 0 :=
  List.count_eq_zero.mpr (processDetections_no_detect m s l)

theorem processDetections_count_raf
    (m : List (String × List (List Rat)) → List Rat → String) (s : CompState)
    (l : List Detection) : (processDetections m s l).1.count FrameEvent.raf = 0 :=
  List.count_eq_zero.mpr (processDetections_no_raf m s l)

theorem drawEvents_count_detect (l : List Detection) :
    (drawEvents l).count FrameEvent.detectCall = 0 :=
  List.count_eq_zero.mpr (drawEvents_no_detect l)

theorem drawEvents_count_raf (l : List Detection) :
    (drawEvents l).count FrameEvent.raf = 0 :=
  List.count_eq_zero.mpr (drawEvents_no_raf l)

/-- C5: in every completed iteration of `detectFaces` (refs non-null,
camera on, 2d context available) the first event is the single sequential
model call, the main-box strokes drawn are exactly the resized boxes of
the detected faces, in order, and the last event is the single
`requestAnimationFrame` re-invocation. -/
theorem frame_loop_order
    (m : List (String × List (List Rat)) → List Rat → String) (s : CompState)
    (inp : FrameInput) (hv : inp.videoPresent = true) (hc : inp.canvasPresent = true)
    (hon : s.isCameraOn = true) (hctx : inp.ctxPresent = true) :
    (detectFrame m s inp).1.head? = some FrameEvent.detectCall ∧
    (detectFrame m s inp).1.getLast? = some FrameEvent.raf ∧
    (detectFrame m s inp).1.count FrameEvent.detectCall = 1 ∧
    (detectFrame m s inp).1.count FrameEvent.raf = 1 ∧
    (detectFrame m s inp).1.filterMap mainBoxOf =
      (inp.detections.map (resizeDetection inp.displaySize)).map Detection.box := by
  have htrace : (detectFrame m s inp).1 =
      FrameEvent.detectCall :: FrameEvent.matchDims inp.displaySize ::
        ([FrameEvent.clearRect] ++
          (processDetections m s (inp.detections.map (resizeDetection inp.displaySize))).1 ++
          drawEvents (inp.detections.map (resizeDetection inp.displaySize)) ++
          [FrameEvent.setFaceCount inp.detections.length] ++ [FrameEvent.raf]) := by
    rw [detectFrame, if_pos (by simp [hv, hc, hon])]
    simp [hctx, hon]
  refine ⟨?_, ?_, ?_, ?_, ?_⟩
  · rw [htrace]
    rfl
  · rw [htrace]
    simp only [← List.append_assoc, ← List.cons_append]
    exact List.getLast?_concat _
  · rw [htrace]
    simp [List.count_cons, List.count_append, processDetections_count_detect,
      drawEvents_count_detect]
  · rw [htrace]
    simp [List.count_cons, List.count_append, processDetections_count_raf,
      drawEvents_count_raf]
  · rw [htrace]
    simp [List.filterMap_append, List.filterMap_cons, mainBoxOf,
      processDetections_no_mainBox, drawEvents_mainBoxes]

/-- Witness for C5 on a concrete frame with no detections. -/
theorem frame_loop_order_witness :
    (detectFrame (fun _ _ => "unknown") { initState with isCameraOn := true }
      ⟨true, true, true, [], ⟨1, 1⟩⟩).1.head? = some FrameEvent.detectCall ∧
    (detectFrame (fun _ _ => "unknown") { initState with isCameraOn := true }
      ⟨true, true, true, [], ⟨1, 1⟩⟩).1.getLast? = some FrameEvent.raf ∧
    (detectFrame (fun _ _ => "unknown") { initState with isCameraOn := true }
      ⟨true, true, true, [], ⟨1, 1⟩⟩).1.count FrameEvent.detectCall = 1 ∧
    (detectFrame (fun _ _ => "unknown") { initState with isCameraOn := true }
      ⟨true, true, true, [], ⟨1, 1⟩⟩).1.count FrameEvent.raf = 1 ∧
    (detectFrame (fun _ _ => "unknown") { initState with isCameraOn := true }
      ⟨true, true, true, [], ⟨1, 1⟩⟩).1.filterMap mainBoxOf =
      (([] : List Detection).map (resizeDetection ⟨1, 1⟩)).map Detection.box := by
  have h := frame_loop_order (fun _ _ => "unknown") { initState with isCameraOn := true }
    ⟨true, true, true, [], ⟨1, 1⟩⟩ rfl rfl rfl rfl
  exact ⟨h.1, h.2.1, h.2.2.1, h.2.2.2.1, h.2.2.2.2⟩

/-- C7: the fixed-descriptor-length invariant of the `faces` table is
maintained by every operation of this codebase that writes or reads the
descriptor column: an insert of a model output of length 128 preserves it,
a policy-checked delete preserves it, and every descriptor loaded back by
`loadSavedFaces` has length 128. -/
theorem descriptor_length_invariant (db : DB) (uid uid2 nm nid fid t : String)
    (d : List Rat) (h1 : descLenInv 128 db) (h2 : d.length = 128) :
    descLenInv 128 (applySave uid nm d nid t db) ∧
    descLenInv 128 (applyDeleteRLS uid2 fid db) ∧
    ∀ f ∈ loadSavedFaces uid db, f.descriptor.length = 128 := by
  refine ⟨?_, ?_, ?_⟩
  · intro r hr
    rw [applySave] at hr
    rcases List.mem_append.mp hr with h | h
    · exact h1 r h
    · have hr2 : r = ⟨nid, uid, nm, encodeDesc (ArrayFrom d), none, t, t⟩ := by
        simpa using h
      subst hr2
      refine ⟨ArrayFrom d, decode_encode (ArrayFrom d), ?_⟩
      simp [ArrayFrom, h2]
  · intro r hr
    exact h1 r (List.mem_of_mem_filter hr)
  · intro f hf
    simp only [loadSavedFaces, List.mem_map, List.mem_filter] at hf
    obtain ⟨r, ⟨hrdb, _⟩, rfl⟩ := hf
    obtain ⟨l, hdec, hlen⟩ := h1 r hrdb
    simp [hdec, hlen]

/-- Witness for C7: the empty table satisfies the invariant and a save of
a 128-vector preserves it. -/
theorem descriptor_length_invariant_witness :
    descLenInv 128 ([] : DB) ∧
    (List.replicate 128 (0 : Rat)).length = 128 ∧
    descLenInv 128 (applySave "u1" "Ann" (List.replicate 128 (0 : Rat)) "r1" "t" []) := by
  have h := descriptor_length_invariant [] "u1" "u1" "Ann" "r1" "f1" "t"
    (List.replicate 128 (0 : Rat)) (by intro r hr; cases hr) (by simp)
  exact ⟨(by intro r hr; cases hr), (by simp), h.1⟩

/-- C9 counterexample: a frame with one detection, a live session but an
empty saved-faces list leaves the previously displayed match label
"alice" on screen, so the label is non-empty although no face is saved. -/
theorem match_label_stale_cex :
    ((⟨true, true, true, [⟨⟨0, 0, 1, 1⟩, ⟨1, 1⟩, [("happy", 1)], [0]⟩],
        ⟨1, 1⟩⟩ : FrameInput)).detections.length = 1 ∧
    ({ initState with isCameraOn := true, matchedFace := "alice", session := some "u1" }
      : CompState).savedFaces.length = 0 ∧
    ({ initState with isCameraOn := true, matchedFace := "alice", session := some "u1" }
      : CompState).session.isSome = true ∧
    (detectFrame (fun _ _ => "unknown")
        { initState with isCameraOn := true, matchedFace := "alice", session := some "u1" }
        ⟨true, true, true, [⟨⟨0, 0, 1, 1⟩, ⟨1, 1⟩, [("happy", 1)], [0]⟩], ⟨1, 1⟩⟩).2.matchedFace
      = "alice" := by
  exact ⟨rfl, rfl, rfl, rfl⟩

/-- C9 amended: on a frame with detections the label is freshly set — to
the matcher's best-match label at threshold 0.6 when it is not "unknown"
and to the empty string when it is — only when a session exists and at
least one face is saved; otherwise the label retains its previous value.
On a frame with zero detections the emotion, the label and the captured
descriptor are all cleared. -/
theorem frame_match_label_amended
    (m : List (String × List (List Rat)) → List Rat → String) (s : CompState)
    (inp : FrameInput) (hv : inp.videoPresent = true) (hc : inp.canvasPresent = true)
    (hon : s.isCameraOn = true) :
    (inp.detections = [] →
      (detectFrame m s inp).2.currentEmotion = "" ∧
      (detectFrame m s inp).2.matchedFace = "" ∧
      (detectFrame m s inp).2.currentDescriptor = none) ∧
    (∀ d0 rest, inp.detections = d0 :: rest →
      (detectFrame m s inp).2.matchedFace =
        (if 0 < s.savedFaces.length ∧ s.session.isSome = true then
          (if m (labeledFaceDescriptors s.savedFaces)
               (resizeDetection inp.displaySize d0).descriptor ≠ "unknown"
           then m (labeledFaceDescriptors s.savedFaces)
                  (resizeDetection inp.displaySize d0).descriptor
           else "")
         else s.matchedFace)) := by
  constructor
  · intro hdet
    rw [detectFrame, if_pos (by simp [hv, hc, hon])]
    simp [hdet, processDetections]
  · intro d0 rest hdet
    rw [detectFrame, if_pos (by simp [hv, hc, hon])]
    by_cases hcond : 0 < s.savedFaces.length ∧ s.session.isSome = true
    · simp [hdet, processDetections, hcond]
    · simp [hdet, processDetections, hcond]

/-- Witness for C9's amended claim on a concrete frame with no
detections. -/
theorem frame_match_label_amended_witness :
    (detectFrame (fun _ _ => "unknown") { initState with isCameraOn := true }
      ⟨true, true, true, [], ⟨1, 1⟩⟩).2.currentEmotion = "" ∧
    (detectFrame (fun _ _ => "unknown") { initState with isCameraOn := true }
      ⟨true, true, true, [], ⟨1, 1⟩⟩).2.matchedFace = "" ∧
    (detectFrame (fun _ _ => "unknown") { initState with isCameraOn := true }
      ⟨true, true, true, [], ⟨1, 1⟩⟩).2.currentDescriptor = none :=
  (frame_match_label_amended (fun _ _ => "unknown") { initState with isCameraOn := true }
    ⟨true, true, true, [], ⟨1, 1⟩⟩ rfl rfl rfl).1 rfl

/-- C3 counterexample: the client delete is not scoped to the requesting
user — its query filters only on the row id, and executed without the
backend policy it removes a row owned by a different user ("v1"). -/
theorem delete_not_client_scoped_cex :
    clientScopedTo (deleteFaceQuery "r1") "u1" = false ∧
    applyDeleteNoRLS "r1" [⟨"r1", "v1", "Bob", encodeDesc [], none, "t0", "t0"⟩] = [] ∧
    (FaceRow.mk "r1" "v1" "Bob" (encodeDesc []) none "t0" "t0").user_id = "v1" := by
  refine ⟨by decide, rfl, rfl⟩

/-- C3 amended: the client issues three persistence operations (select,
insert, delete); the select and the insert are additionally scoped to the
requesting user on the client side, while the delete is keyed only by row
id; ownership is enforced for it solely by the backend's row-level
policy, under which a delete never removes another user's rows. -/
theorem persistence_ops_scoping_amended (uid fid nm : String) (d : List Rat) (db : DB) :
    (clientQueries uid fid nm d).length = 3 ∧
    filtersOf (loadSavedFacesQuery uid) = [("user_id", uid)] ∧
    clientScopedTo (loadSavedFacesQuery uid) uid = true ∧
    clientScopedTo (saveFaceQuery uid nm d) uid = true ∧
    filtersOf (deleteFaceQuery fid) = [("id", fid)] ∧
    clientScopedTo (deleteFaceQuery fid) uid = false ∧
    (∀ r ∈ applyDeleteRLS uid fid db, r ∈ db) ∧
    (∀ r ∈ db, r.user_id ≠ uid → r ∈ applyDeleteRLS uid fid db) ∧
    (∀ f ∈ loadSavedFaces uid db, ∃ r ∈ db, r.user_id = uid ∧ f.id = r.id) := by
  refine ⟨rfl, rfl, ?_, ?_, rfl, ?_, ?_, ?_, ?_⟩
  · simp [clientScopedTo, loadSavedFacesQuery]
  · simp [clientScopedTo, saveFaceQuery]
  · simp [clientScopedTo, deleteFaceQuery]
  · intro r hr
    exact List.mem_of_mem_filter hr
  · intro r hr hne
    rw [applyDeleteRLS]
    refine List.mem_filter.mpr ⟨hr, ?_⟩
    have hu : deleteUsing uid r = false :=
      beq_eq_false_iff_ne.mpr (fun h => hne h.symm)
    simp [hu]
  · intro f hf
    simp only [loadSavedFaces, List.mem_map, List.mem_filter, beq_iff_eq] at hf
    obtain ⟨r, ⟨hrdb, hruid⟩, rfl⟩ := hf
    exact ⟨r, hrdb, hruid, rfl⟩

/-- Witness for C3's amended claim at concrete users and rows: the select
is client-scoped, the delete is not, and under the backend policy a
delete by "u1" leaves "v1"'s row in place. -/
theorem persistence_ops_scoping_amended_witness :
    clientScopedTo (loadSavedFacesQuery "u1") "u1" = true ∧
    clientScopedTo (deleteFaceQuery "r1") "u1" = false ∧
    (FaceRow.mk "r2" "v1" "Bob" (encodeDesc []) none "t" "t") ∈
      applyDeleteRLS "u1" "r1" [⟨"r2", "v1", "Bob", encodeDesc [], none, "t", "t"⟩] := by
  have h := persistence_ops_scoping_amended "u1" "r1" "Ann" []
    [⟨"r2", "v1", "Bob", encodeDesc [], none, "t", "t"⟩]
  refine ⟨h.2.2.1, h.2.2.2.2.2.1, ?_⟩
  exact h.2.2.2.2.2.2.2.1 ⟨"r2", "v1", "Bob", encodeDesc [], none, "t", "t"⟩
    (by simp) (by decide)
